import Mathlib

/-!
Verification of the retrieval-augmented question-answering pipeline of this
repository against its specification.

The Python sources are shallowly embedded: pure string manipulation becomes
Lean functions on `String` / `List Char`; calls into external libraries
(HTTP, pdfplumber, PyPDF2, pytesseract, langchain loaders, the embedding and
LLM services, the filesystem) are passed in as explicit parameters whose
`Except String` results model "returned normally" versus "raised an
exception carrying this message"; a `raise` that escapes a modelled function
is an `Except.error` result of the function itself.

Python strings are modelled as Lean `String`s (sequences of characters);
where proofs need structural induction over characters the model works on
`String.data` or directly on `List Char`.
-/

/-! ## Python string primitives -/

/-- Python `needle in hay` (substring containment) on character lists. -/
def listIn (needle : List Char) : List Char → Bool
  | [] => needle.isEmpty
  | c :: t => needle.isPrefixOf (c :: t) || listIn needle t

/-- Python `needle in hay` for strings. -/
def pyIn (needle hay : String) : Bool :=
  listIn needle.data hay.data

/-- Python `s.endswith(suf)`. -/
def pyEndsWith (suf s : String) : Bool :=
  suf.data.isSuffixOf s.data

/-- Python `s.lower()` (the sources only feed it ASCII text). -/
def pyLower (s : String) : String :=
  ⟨s.data.map Char.toLower⟩

/-- Python `not s.strip()`: true exactly when every character of `s` is
whitespace, i.e. stripping leading/trailing whitespace leaves the empty
string.  The sources only use `s.strip()` inside truthiness tests, so the
test is translated directly. -/
def isBlank (s : String) : Bool :=
  s.data.all Char.isWhitespace

theorem isBlank_append (a b : String) :
    isBlank (a ++ b) = (isBlank a && isBlank b) := by
  simp [isBlank, String.data_append]

/-- Python `s.split(" ")` (explicit single-space separator: empty fields are
kept, unlike `split()` with no argument), on character lists. -/
def splitSpace : List Char → List (List Char)
  | [] => [[]]
  | c :: cs =>
    if c = ' ' then [] :: splitSpace cs
    else
      match splitSpace cs with
      | t :: ts => (c :: t) :: ts
      | [] => [[c]]

theorem splitSpace_ne_nil (l : List Char) : splitSpace l ≠ [] := by
  induction l with
  | nil => simp [splitSpace]
  | cons c cs ih =>
    simp only [splitSpace]
    split
    · simp
    · cases h : splitSpace cs with
      | nil => simp
      | cons t ts => simp

theorem splitSpace_no_space (l : List Char) (h : ' ' ∉ l) :
    splitSpace l = [l] := by
  induction l with
  | nil => rfl
  | cons c cs ih =>
    have hc : c ≠ ' ' := fun hc => h (hc ▸ List.mem_cons_self c cs)
    have hcs : ' ' ∉ cs := fun hm => h (List.mem_cons_of_mem c hm)
    simp only [splitSpace, if_neg hc, ih hcs]

theorem splitSpace_word_space (w rest : List Char) (h : ' ' ∉ w) :
    splitSpace (w ++ ' ' :: rest) = w :: splitSpace rest := by
  induction w with
  | nil => simp [splitSpace]
  | cons c cs ih =>
    have hc : c ≠ ' ' := fun hc => h (hc ▸ List.mem_cons_self c cs)
    have hcs : ' ' ∉ cs := fun hm => h (List.mem_cons_of_mem c hm)
    simp only [List.cons_append, splitSpace, if_neg hc, List.append_eq, ih hcs]

/-! ## `src/app/utils.py` — `verify_token`

The module imports only `logging` and `fastapi` — it never imports `os`.
`verify_token(authorization)` first checks the `Bearer ` header shape and
raises `HTTPException` 401 on a mismatch.  When the prefix matches, it
assigns `token = authorization.split(" ")[1]` and then evaluates
`token != os.getenv("HACKRX_API_KEY")` — whose right operand raises
`NameError: name 'os' is not defined`, because `os` is unbound in this
module.  So the function can never return `True` and never compares any
field to a secret: every Bearer-prefixed header raises `NameError`, which
is not an `HTTPException`.  Raised exceptions are modelled as
`Except.error` values of `PyExc`, distinguishing `HTTPException` (re-raised
by the endpoint's first handler) from other exceptions (converted to a 500
by its generic handler). -/

structure HttpError where
  status : Nat
  detail : String
deriving DecidableEq, Repr

/-- A raised Python exception: either a FastAPI `HTTPException` or any
other exception with its `str(e)` message (here only the `NameError`). -/
inductive PyExc where
  | http (e : HttpError)
  | nameError (msg : String)
deriving DecidableEq, Repr

/-- The literal characters of `"Bearer "`. -/
def bearerTag : List Char := "Bearer ".data

def verify_token (authorization : List Char) : Except PyExc Bool :=
  if bearerTag.isPrefixOf authorization then
    -- `token = authorization.split(" ")[1]` is assigned, but evaluating the
    -- comparison's right operand `os.getenv(...)` raises NameError first
    let _token := (splitSpace authorization).getD 1 []
    Except.error (.nameError "name 'os' is not defined")
  else Except.error (.http ⟨401, "Invalid authorization header format"⟩)

/-! ## `src/app/processors.py` — data model

langchain `Document`s carry `page_content` and a `metadata` dict.  Python
metadata values are modelled by `PyVal`; `chunk_documents` only inspects them
through `isinstance(v, (str, int, float, bool))`, so the `float` constructor
carries no payload.  A Python dict is modelled as an insertion-ordered
association list: assignment to an existing key keeps its position,
assignment to a fresh key appends, deletion filters. -/

inductive PyVal where
  | str (s : String)
  | int (n : Int)
  | float
  | boolean (b : Bool)
  | pyNone
  | list (xs : List PyVal)
  | dict (xs : List (String × PyVal))

/-- Python `isinstance(v, (str, int, float, bool))`. -/
def isPrimitive : PyVal → Bool
  | .str _ => true
  | .int _ => true
  | .float => true
  | .boolean _ => true
  | _ => false

abbrev Metadata := List (String × PyVal)

/-- `k in d` for a Python dict. -/
def hasKey (m : Metadata) (k : String) : Bool :=
  m.any (fun kv => kv.1 == k)

/-- Python `d.get(k, default)`. -/
def dictGetD (m : Metadata) (k : String) (d : PyVal) : PyVal :=
  match m.find? (fun kv => kv.1 == k) with
  | some kv => kv.2
  | none => d

/-- Python `d[k] = v`: replace in place when the key exists, append
otherwise. -/
def dictSet (m : Metadata) (k : String) (v : PyVal) : Metadata :=
  if hasKey m k then m.map (fun kv => if kv.1 == k then (k, v) else kv)
  else m ++ [(k, v)]

/-- The value a Python dict lookup would find, if any. -/
def lookupVal (m : Metadata) (k : String) : Option PyVal :=
  (m.find? (fun kv => kv.1 == k)).map (fun kv => kv.2)

structure Document where
  page_content : String
  metadata : Metadata

/-! ### `DocumentProcessor.chunk_documents`

The splitter call `RecursiveCharacterTextSplitter(...).split_documents` is a
library call, passed in as its outcome (`Except.error` = raised).  The
metadata loop body for one chunk:

    chunk.metadata['source'] = chunk.metadata.get('source', 'unknown')
    chunk.metadata['page'] = chunk.metadata.get('page', 0)
    for key in list(chunk.metadata.keys()):
        if not isinstance(chunk.metadata[key], (str, int, float, bool)):
            del chunk.metadata[key]

A raised splitter error is caught and re-raised as
`HTTPException(500, "Document processing error: ...")`. -/

def sanitizeMetadata (m : Metadata) : Metadata :=
  let m1 := dictSet m "source" (dictGetD m "source" (.str "unknown"))
  let m2 := dictSet m1 "page" (dictGetD m1 "page" (.int 0))
  m2.filter (fun kv => isPrimitive kv.2)

def sanitizeChunk (c : Document) : Document :=
  { c with metadata := sanitizeMetadata c.metadata }

def chunk_documents (split : Except String (List Document)) :
    Except HttpError (List Document) :=
  match split with
  | .error e => .error ⟨500, "Document processing error: " ++ e⟩
  | .ok chunks => .ok (chunks.map sanitizeChunk)

/-! ### `DocumentProcessor.load_document`

Dispatches on the URL suffix to one of three langchain loaders (passed in as
functions whose `Except.error` models a raised exception); any unsupported
suffix raises `ValueError("Unsupported file format")`.  Every exception is
caught and re-raised as `HTTPException(400, "Document loading error: ...")`. -/

def load_document (loadPdf loadDocx loadEmail : String → Except String (List Document))
    (document_url : String) : Except HttpError (List Document) :=
  let attempt : Except String (List Document) :=
    if pyEndsWith ".pdf" document_url then loadPdf document_url
    else if pyEndsWith ".docx" document_url then loadDocx document_url
    else if pyEndsWith ".eml" document_url || pyEndsWith ".msg" document_url then
      loadEmail document_url
    else .error "Unsupported file format"
  match attempt with
  | .ok docs => .ok docs
  | .error e => .error ⟨400, "Document loading error: " ++ e⟩

/-! ## `src/app/processors.py` — `QueryProcessor`

`_create_prompt_template` builds the default template with `{context}` and
`{question}` placeholders and a JSON output-schema block (`{{`/`}}` render
as literal braces); `_create_domain_templates` builds four domain templates
that contain no placeholders at all.  `process_query` selects
`self.domain_specific_templates.get(domain, self.prompt_template)` and the
"stuff" chain formats the chosen template with the concatenated retrieved
texts as `context` and the query as `question`; `str.format` ignores the
two arguments on a template without placeholders and returns it unchanged.
The template constants below are the rendered text (brace escapes already
applied), split at the two placeholders for the default template. -/

def defaultTplA : String :=
  "\n        You are an expert document analyst for HackRx 6.0. Analyze the context and answer precisely.\n\n        Context: "

def defaultTplB : String := "\n\n        Question: "

def defaultTplC : String :=
  "\n\n        Respond in this JSON format:\n        \x7b\n            \"answer\": \"Direct answer\",\n            \"conditions\": [\"List\", \"of\", \"conditions\"],\n            \"references\": [\x7b\"page\": \"X\", \"section\": \"Y\", \"excerpt\": \"Z\"\x7d],\n            \"rationale\": \"Explanation\",\n            \"confidence\": \"High/Medium/Low\"\n        \x7d\n\n        Guidelines:\n        - Be factual and concise\n        - Only use provided context\n        - Include all relevant conditions\n        - For legal/insurance terms, provide exact definitions\n        "

def insuranceTpl : String :=
  "\n            Insurance Policy Analysis for HackRx:\n            Focus on: coverage, exclusions, waiting periods, claim procedures.\n            Highlight sub-limits, co-payments, special conditions.\n            "

def legalTpl : String :=
  "\n            Legal Document Analysis for HackRx:\n            Focus on: obligations, rights, termination clauses, liabilities.\n            Highlight defined terms, jurisdictional aspects.\n            "

def hrTpl : String :=
  "\n            HR Policy Analysis for HackRx:\n            Focus on: employee benefits, leave policies, code of conduct.\n            Highlight eligibility criteria, probation periods.\n            "

def complianceTpl : String :=
  "\n            Compliance Document Analysis for HackRx:\n            Focus on: regulatory requirements, reporting obligations.\n            Highlight deadlines, penalties, certification requirements.\n            "

/-- `_create_domain_templates`: the four domain-specific templates. -/
def domain_specific_templates : List (String × String) :=
  [("insurance", insuranceTpl), ("legal", legalTpl),
   ("hr", hrTpl), ("compliance", complianceTpl)]

/-- `QueryProcessor._determine_domain`. -/
def _determine_domain (question : String) : String :=
  let ql := pyLower question
  if ["policy", "cover", "premium", "claim"].any (fun t => pyIn t ql) then "insurance"
  else if ["clause", "contract", "agreement"].any (fun t => pyIn t ql) then "legal"
  else if ["employee", "leave", "benefit"].any (fun t => pyIn t ql) then "hr"
  else if ["compliance", "regulation", "audit"].any (fun t => pyIn t ql) then "compliance"
  else "general"

/-- `self.domain_specific_templates.get(domain, self.prompt_template)`. -/
def domainLookup (d : String) : Option String :=
  (domain_specific_templates.find? (fun kv => kv.1 == d)).map (fun kv => kv.2)

/-- The single prompt text the "stuff" chain sends to the LLM for one
question: the selected template formatted with the retrieved context and the
question (the default template interpolates both; a domain template has no
placeholders and is sent as-is). -/
def build_prompt (question ctx : String) : String :=
  match domainLookup (_determine_domain question) with
  | some tpl => tpl
  | none => defaultTplA ++ ctx ++ defaultTplB ++ question ++ defaultTplC

/-! ## `src/extractor.py`

External effects are passed in as outcomes:
* `page.extract_text()` (pdfplumber / PyPDF2) either raises
  (`Except.error`) or returns an `Optional[str]`;
* `pytesseract.image_to_string` either raises or returns a `str`;
* opening a handle (`pdfplumber.open`, `open(file_path, 'rb')` +
  `PyPDF2.PdfReader`, `convert_from_path`) either raises or yields the list
  of per-page outcomes.

`extract_from_pdf` also executes `f = open("file.txt", "w")` *before* its
`try:` block, so a failure of that open propagates to the caller — modelled
by the `openLog` outcome.  The per-page `f.write(page_text)` calls sit
inside the per-page `try`, and in the pdfplumber stage `f.write` runs before
the `if page_text:` truthiness test: a `None` page text makes `f.write`
raise `TypeError`, which skips the page — the same net effect on `text` as
the falsy test, so the page folds below are shared by both text-layer
stages. -/

structure PdfEnv where
  openLog : Except String Unit
  plumber : Except String (List (Except String (Option String)))
  pypdf : Except String (List (Except String (Option String)))
  ocr : Except String (List (Except String String))

/-- One page of a text-layer stage: page exceptions are caught and skipped,
falsy (`None` or empty) page text is skipped, otherwise
`text += page_text + "\n\n"`. -/
def textPage (acc : String) (p : Except String (Option String)) : String :=
  match p with
  | .error _ => acc
  | .ok none => acc
  | .ok (some s) => if s = "" then acc else acc ++ s ++ "\n\n"

def textStage (acc : String) (pages : List (Except String (Option String))) : String :=
  pages.foldl textPage acc

/-- One OCR page: `image_to_string` returns a `str`; exceptions skipped,
empty output skipped. -/
def ocrPage (acc : String) (p : Except String String) : String :=
  match p with
  | .error _ => acc
  | .ok s => if s = "" then acc else acc ++ s ++ "\n\n"

def ocrStage (acc : String) (pages : List (Except String String)) : String :=
  pages.foldl ocrPage acc

/-- `extract_from_pdf`: pdfplumber text layer, then PyPDF2 if the text so
far is blank, then OCR if still blank.  A `pdfplumber.open` failure is
caught by the function-level handler (returning an error string, so stages
2–3 are never reached); PyPDF2 / OCR stage-level failures are caught by
their stage-local handlers and merely leave `text` unchanged.  The final
line is `return text if text.strip() else "No text extracted from PDF."`.
An `Except.error` result models the `open("file.txt", "w")` exception
escaping the function. -/
def extract_from_pdf (env : PdfEnv) : Except String String :=
  match env.openLog with
  | .error e => .error e
  | .ok _ =>
    match env.plumber with
    | .error e => .ok ("Error extracting from PDF: " ++ e)
    | .ok pages1 =>
      let t1 := textStage "" pages1
      let t2 := if isBlank t1 then
          match env.pypdf with
          | .error _ => t1
          | .ok pages2 => textStage t1 pages2
        else t1
      let t3 := if isBlank t2 then
          match env.ocr with
          | .error _ => t2
          | .ok pages3 => ocrStage t2 pages3
        else t2
      .ok (if isBlank t3 then "No text extracted from PDF." else t3)

/-- `extract_from_docx`: everything, including its own
`open("file.txt", "w")`, sits inside one `try`, so every failure becomes
an error string.  Paragraph texts are joined with `"\n"` after each. -/
structure DocxEnv where
  docOpen : Except String (List String)
  openLog : Except String Unit

def extract_from_docx (env : DocxEnv) : String :=
  match env.docOpen with
  | .error e => "Error extracting from DOCX: " ++ e
  | .ok paras =>
    match env.openLog with
    | .error e => "Error extracting from DOCX: " ++ e
    | .ok _ =>
      let text := paras.foldl (fun acc p => acc ++ p ++ "\n") ""
      if isBlank text then "No text extracted from DOCX." else text

/-! ### `download_pdf`

`requests.get` + `raise_for_status` either succeed or raise; on success
`tempfile.NamedTemporaryFile(delete=False, suffix=".pdf")` creates the file
on disk, then `temp_file.write(response.content)` + `close()` may raise.
Every exception is caught and returned as
`"Error downloading PDF: " + str(e)` — note that a write failure happens
*after* the temporary file was created.  The second component of the result
records whether the temporary file exists on disk when the function
returns. -/

structure DownloadEnv where
  getResult : Except String Unit
  tempName : String
  writeResult : Except String Unit

def download_pdf (env : DownloadEnv) : String × Bool :=
  match env.getResult with
  | .error e => ("Error downloading PDF: " ++ e, false)
  | .ok _ =>
    match env.writeResult with
    | .error e => ("Error downloading PDF: " ++ e, true)
    | .ok _ => (env.tempName, true)

/-! ### `extract_text` -/

/-- `os.path.splitext(path)[1].lower()`: the extension starts at the last
dot of the last path component, except that leading dots of that component
never start an extension. -/
def splitextExt (s : List Char) : List Char :=
  let base := (s.reverse.takeWhile (fun c => c ≠ '/')).reverse
  let rest := base.drop (base.takeWhile (fun c => c = '.')).length
  if rest.any (fun c => c = '.') then
    '.' :: (rest.reverse.takeWhile (fun c => c ≠ '.')).reverse
  else []

def pyExt (path : String) : String :=
  ⟨(splitextExt path.data).map Char.toLower⟩

structure ExtractEnv where
  dl : DownloadEnv
  fileExists : Bool
  pdf : PdfEnv
  docx : DocxEnv
  txtRead : Except String String

/-- Result of `extract_text` plus the disk state of the download's
temporary file afterwards.  `result = .error e` models an exception
escaping `extract_text` (its body is `try ... finally`, with no handler).
The `finally` block removes the temporary file only when `is_url` holds and
`temp_file_path` was assigned; in this model `os.remove` on an existing
file succeeds. -/
structure ExtractResult where
  result : Except String String
  tempExists : Bool
deriving Repr

def extract_text (env : ExtractEnv) (input_source : String) (is_url : Bool) :
    ExtractResult :=
  if is_url then
    let dl := download_pdf env.dl
    if pyIn "Error" dl.1 then
      -- early return before `temp_file_path = file_path`: no cleanup runs
      { result := .ok dl.1, tempExists := dl.2 }
    else
      -- `extension` is forced to ".pdf" for URLs; `finally` removes the file
      match extract_from_pdf env.pdf with
      | .ok s => { result := .ok s, tempExists := false }
      | .error e => { result := .error e, tempExists := false }
  else
    if env.fileExists = false then
      { result := .ok "File not found.", tempExists := false }
    else
      let ext := pyExt input_source
      if ext = ".pdf" then
        match extract_from_pdf env.pdf with
        | .ok s => { result := .ok s, tempExists := false }
        | .error e => { result := .error e, tempExists := false }
      else if ext = ".docx" then
        { result := .ok (extract_from_docx env.docx), tempExists := false }
      else if ext = ".txt" then
        { result := .ok (match env.txtRead with
            | .ok s => s
            | .error e => "Error reading TXT file: " ++ e),
          tempExists := false }
      else
        { result := .ok "Unsupported file format. Use PDF, DOCX, or TXT.",
          tempExists := false }

/-! ## `src/api/hackrx/run.py`

The answer-formatting block parses the LLM result with `json.loads`
(modelled as a caller-supplied partial parser `String → Option Json`, since
`json` is a library) and builds the multi-field answer.  Only
`json.JSONDecodeError` is caught by the inner handler; any other exception
(e.g. `AttributeError` when the parsed value is not a dict, or `TypeError`
from `', '.join` on a non-iterable) escapes to the per-question handler. -/

inductive Json where
  | str (s : String)
  | num (n : Int)
  | boolean (b : Bool)
  | null
  | arr (xs : List Json)
  | obj (fields : List (String × Json))

/-- Python `dict.get(k, default)` on a parsed JSON object. -/
def jGetD (fields : List (String × Json)) (k : String) (d : Json) : Json :=
  match fields.find? (fun kv => kv.1 == k) with
  | some kv => kv.2
  | none => d

mutual

/-- Python `str()` as used by the f-string on parsed JSON values (only the
`str` case matters to the claims; the others are best-effort renderings). -/
def pyStr : Json → String
  | .str s => s
  | .num n => toString n
  | .boolean true => "True"
  | .boolean false => "False"
  | .null => "None"
  | .arr xs => "[" ++ String.intercalate ", " (pyStrList xs) ++ "]"
  | .obj fs => "\x7b" ++ String.intercalate ", " (pyStrFields fs) ++ "\x7d"

def pyStrList : List Json → List String
  | [] => []
  | j :: js => pyStr j :: pyStrList js

def pyStrFields : List (String × Json) → List String
  | [] => []
  | (k, v) :: rest => (k ++ ": " ++ pyStr v) :: pyStrFields rest

end

mutual

/-- `json.dumps` (compact rendering; the `indent=2` layout is immaterial to
every claim). -/
def jsonDumps : Json → String
  | .str s => "\"" ++ s ++ "\""
  | .num n => toString n
  | .boolean true => "true"
  | .boolean false => "false"
  | .null => "null"
  | .arr xs => "[" ++ String.intercalate ", " (jsonDumpsList xs) ++ "]"
  | .obj fs => "\x7b" ++ String.intercalate ", " (jsonDumpsFields fs) ++ "\x7d"

def jsonDumpsList : List Json → List String
  | [] => []
  | j :: js => jsonDumps j :: jsonDumpsList js

def jsonDumpsFields : List (String × Json) → List String
  | [] => []
  | (k, v) :: rest => ("\"" ++ k ++ "\": " ++ jsonDumps v) :: jsonDumpsFields rest

end

/-- Python `', '.join(x)`: joins an iterable of strings.  A list must
contain only strings; a string iterates its characters; a dict iterates its
keys; other values raise `TypeError`. -/
def pyJoin (sep : String) : Json → Except String String
  | .arr xs => do
    let parts ← xs.mapM (fun j =>
      match j with
      | .str s => Except.ok s
      | _ => Except.error "TypeError: sequence item: expected str instance")
    return String.intercalate sep parts
  | .str s => .ok (String.intercalate sep (s.data.map (fun c => String.singleton c)))
  | .obj fs => .ok (String.intercalate sep (fs.map (fun kv => kv.1)))
  | _ => .error "TypeError: can only join an iterable"

/-- The `# 6. Format response` block: `json.loads(result["result"])`; on
`JSONDecodeError` the raw result text is the answer; a parsed non-dict
value raises `AttributeError` past the inner handler. -/
def format_answer (jsonLoads : String → Option Json) (result : String) :
    Except String String :=
  match jsonLoads result with
  | none => .ok result
  | some (.obj fields) =>
    match pyJoin ", " (jGetD fields "conditions" (.arr [.str "None"])) with
    | .error e => .error e
    | .ok conds =>
      .ok (pyStr (jGetD fields "answer" (.str "No answer found.")) ++ "\n\n"
        ++ "Conditions: " ++ conds ++ "\n"
        ++ "References: " ++ jsonDumps (jGetD fields "references" (.arr [])) ++ "\n"
        ++ "Confidence: " ++ pyStr (jGetD fields "confidence" (.str "Unknown")) ++ "\n"
        ++ "Rationale: " ++ pyStr (jGetD fields "rationale" (.str "Not provided.")))
  | some _ => .error "AttributeError: object has no attribute get"

/-! ### The endpoint `process_documents`

Library and service backed steps are environment functions; `Except.error`
models a raised exception with its message (for a raised `HTTPException`
the message approximates `str(e)` by the exception's detail text).
`similarity_search` and `process_query` wrap their internal failures in
`HTTPException(500, ...)` detail strings exactly as the source does. -/

structure RunEnv where
  initOk : Except String Unit
  loadPdf : String → Except String (List Document)
  loadDocx : String → Except String (List Document)
  loadEmail : String → Except String (List Document)
  splitDocs : List Document → Except String (List Document)
  createStore : List Document → Except String Unit
  search : String → Except String (List Document)
  runQuery : String → List Document → Except String String
  jsonLoads : String → Option Json

/-- `VectorStoreManager.similarity_search`: failures re-raised as
`HTTPException(500, "Search error: ...")`. -/
def similarity_search (search : String → Except String (List Document))
    (q : String) : Except String (List Document) :=
  match search q with
  | .ok ds => .ok ds
  | .error e => .error ("Search error: " ++ e)

/-- `QueryProcessor.process_query`: failures re-raised as
`HTTPException(500, "Query processing error: ...")`; on success the loop
uses `result["result"]`. -/
def process_query (runQuery : String → List Document → Except String String)
    (q : String) (ds : List Document) : Except String String :=
  match runQuery q ds with
  | .ok r => .ok r
  | .error e => .error ("Query processing error: " ++ e)

/-- `VectorStoreManager.create_vector_store` (FAISS branch): failures
re-raised as `HTTPException(500, "Vector store error: ...")`. -/
def create_vector_store (createStore : List Document → Except String Unit)
    (chunks : List Document) : Except HttpError Unit :=
  match createStore chunks with
  | .ok _ => .ok ()
  | .error e => .error ⟨500, "Vector store error: " ++ e⟩

/-- The body of the per-question `try`: retrieve, query, format. -/
def per_question (env : RunEnv) (q : String) : Except String String := do
  let ds ← similarity_search env.search q
  let r ← process_query env.runQuery q ds
  format_answer env.jsonLoads r

/-- One loop iteration: any exception is caught and the slot becomes
`f"Error processing question: {str(e)}"`. -/
def answer_for (env : RunEnv) (q : String) : String :=
  match per_question env q with
  | .ok a => a
  | .error e => "Error processing question: " ++ e

structure AnswerResponse where
  answers : List String
  success : Bool
  error : Option String

/-- The `/api/v1/hackrx/run` handler.  `processing_time` is a wall-clock
float and is not modelled.  The outer handlers re-raise `HTTPException`s
(`except HTTPException: raise`) and turn any other exception — including
the `NameError` that `verify_token` raises for every Bearer-prefixed
header — into a 500 whose detail carries `"Internal server error"` and
`str(e)`. -/
def process_documents (env : RunEnv) (authorization : List Char)
    (documents : String) (questions : List String) :
    Except HttpError AnswerResponse :=
  match verify_token authorization with
  | .error (.http he) => .error he
  | .error (.nameError m) => .error ⟨500, "Internal server error: " ++ m⟩
  | .ok _ =>
    match env.initOk with
    | .error e => .error ⟨500, "Internal server error: " ++ e⟩
    | .ok _ =>
      match load_document env.loadPdf env.loadDocx env.loadEmail documents with
      | .error he => .error he
      | .ok raw_docs =>
        match chunk_documents (env.splitDocs raw_docs) with
        | .error he => .error he
        | .ok chunks =>
          match create_vector_store env.createStore chunks with
          | .error he => .error he
          | .ok _ =>
            .ok { answers := questions.map (answer_for env),
                  success := true, error := none }

/-! ## Helper lemmas -/

theorem isPrefixOf_append (l₁ l₂ : List Char) : l₁.isPrefixOf (l₁ ++ l₂) = true := by
  induction l₁ with
  | nil => simp [List.isPrefixOf]
  | cons a as ih => simp [List.isPrefixOf, ih]

theorem listIn_nil_left (h : List Char) : listIn [] h = true := by
  cases h with
  | nil => rfl
  | cons c t => simp [listIn, List.isPrefixOf]

theorem listIn_append_self (n b : List Char) : listIn n (n ++ b) = true := by
  cases n with
  | nil => simpa using listIn_nil_left b
  | cons c cs =>
    simp only [List.cons_append, listIn, Bool.or_eq_true]
    exact Or.inl (isPrefixOf_append (c :: cs) b)

theorem listIn_append_left (n x h : List Char) (hh : listIn n h = true) :
    listIn n (x ++ h) = true := by
  induction x with
  | nil => simpa using hh
  | cons c xs ih => simp only [List.cons_append, listIn, Bool.or_eq_true]; exact Or.inr ih

theorem pyIn_middle (sub a b : String) : pyIn sub (a ++ (sub ++ b)) = true := by
  simp only [pyIn, String.data_append]
  exact listIn_append_left _ _ _ (listIn_append_self _ _)

theorem pyIn_right (sub a b : String) (h : pyIn sub b = true) :
    pyIn sub (a ++ b) = true := by
  simp only [pyIn, String.data_append]
  exact listIn_append_left _ _ _ h

/-! ## C10 — bearer-token verification -/

/-- C10 (code-bug exhibit): the claim's first half is what the code does —
a header without the exact `"Bearer "` prefix raises 401 with the
format-error detail, before anything else can happen — but its second half
describes the comparison the code only *intends*: because `src/app/utils.py`
never imports `os`, every Bearer-prefixed header makes
`token != os.getenv("HACKRX_API_KEY")` raise
`NameError: name 'os' is not defined`, so no field is ever compared to any
secret and `verify_token` can never return `True`.  (The spec's boundary
contract — "a bearer token compared against a configured secret; mismatch
→ unauthorized" — and the comparison line itself make the intent clear;
the missing import is the slip.) -/
theorem verify_token_never_compares :
    (∀ auth, bearerTag.isPrefixOf auth = false →
        verify_token auth =
          .error (.http ⟨401, "Invalid authorization header format"⟩)) ∧
    (∀ auth, bearerTag.isPrefixOf auth = true →
        verify_token auth = .error (.nameError "name 'os' is not defined")) := by
  constructor
  · intro auth h
    simp [verify_token, h]
  · intro auth h
    simp [verify_token, h]

/-- Concrete instances of C10's exhibit: a non-Bearer header 401s; every
Bearer-prefixed header — whatever the token, valid-looking or not — raises
the `NameError` instead of being compared. -/
theorem verify_token_never_compares_witness :
    verify_token "Basic k".data =
        .error (.http ⟨401, "Invalid authorization header format"⟩) ∧
    verify_token "Bearer abc".data =
        .error (.nameError "name 'os' is not defined") ∧
    verify_token "Bearer abc extra".data =
        .error (.nameError "name 'os' is not defined") :=
  ⟨verify_token_never_compares.1 _ (by decide),
   verify_token_never_compares.2 _ (by decide),
   verify_token_never_compares.2 _ (by decide)⟩

/-! ## C6 — raw-text fallback on unparseable LLM output -/

/-- C6: whenever `json.loads` fails on the LLM result, the inner
`except json.JSONDecodeError` handler makes the raw result text the answer,
unchanged and without raising; a formatted multi-field answer is only built
in the branch where parsing succeeded. -/
theorem format_answer_raw_fallback (jsonLoads : String → Option Json)
    (r : String) (h : jsonLoads r = none) :
    format_answer jsonLoads r = .ok r := by
  simp [format_answer, h]

/-- Concrete instance of C6: a plain-text LLM response comes back verbatim. -/
theorem format_answer_raw_fallback_witness :
    format_answer (fun _ => none) "Paris is the capital." =
      .ok "Paris is the capital." :=
  format_answer_raw_fallback (fun _ => none) "Paris is the capital." rfl

/-! ## C3 — ordered PDF extraction fallback -/

/-- A text-layer page outcome that contributes no usable text: the page
raised, returned `None`, or returned only whitespace. -/
def pageBlank : Except String (Option String) → Bool
  | .ok (some s) => isBlank s
  | _ => true

/-- An OCR page outcome that contributes no usable text. -/
def ocrPageBlank : Except String String → Bool
  | .ok s => isBlank s
  | .error _ => true

theorem isBlank_textPage (acc : String) (p : Except String (Option String))
    (h : pageBlank p = true) : isBlank (textPage acc p) = isBlank acc := by
  match p with
  | .error _ => rfl
  | .ok none => rfl
  | .ok (some s) =>
    simp only [textPage]
    split
    · rfl
    · simp only [pageBlank] at h
      simp [isBlank_append, h, show isBlank "\n\n" = true from rfl]

theorem isBlank_textStage (ps : List (Except String (Option String)))
    (acc : String) (h : ps.all pageBlank = true) :
    isBlank (textStage acc ps) = isBlank acc := by
  induction ps generalizing acc with
  | nil => rfl
  | cons p rest ih =>
    simp only [List.all_cons, Bool.and_eq_true] at h
    simp only [textStage, List.foldl_cons]
    rw [show List.foldl textPage (textPage acc p) rest = textStage (textPage acc p) rest from rfl,
      ih _ h.2, isBlank_textPage _ _ h.1]

theorem isBlank_ocrPage (acc : String) (p : Except String String)
    (h : ocrPageBlank p = true) : isBlank (ocrPage acc p) = isBlank acc := by
  match p with
  | .error _ => rfl
  | .ok s =>
    simp only [ocrPage]
    split
    · rfl
    · simp only [ocrPageBlank] at h
      simp [isBlank_append, h, show isBlank "\n\n" = true from rfl]

theorem isBlank_ocrStage (ps : List (Except String String)) (acc : String)
    (h : ps.all ocrPageBlank = true) :
    isBlank (ocrStage acc ps) = isBlank acc := by
  induction ps generalizing acc with
  | nil => rfl
  | cons p rest ih =>
    simp only [List.all_cons, Bool.and_eq_true] at h
    simp only [ocrStage, List.foldl_cons]
    rw [show List.foldl ocrPage (ocrPage acc p) rest = ocrStage (ocrPage acc p) rest from rfl,
      ih _ h.2, isBlank_ocrPage _ _ h.1]

theorem textStage_skip_error (acc : String) (xs ys : List (Except String (Option String)))
    (err : String) : textStage acc (xs ++ .error err :: ys) = textStage acc (xs ++ ys) := by
  simp [textStage, List.foldl_append, List.foldl_cons, textPage]

theorem ocrStage_skip_error (acc : String) (xs ys : List (Except String String))
    (err : String) : ocrStage acc (xs ++ .error err :: ys) = ocrStage acc (xs ++ ys) := by
  simp [ocrStage, List.foldl_append, List.foldl_cons, ocrPage]

/-- C3: with the debug-log open succeeding, `extract_from_pdf` runs its
three stages in strict order:
(1) if the pdfplumber text layer yields non-blank text, that text is the
result and the PyPDF2/OCR outcomes are never consulted;
(2) if stage 1 is blank but PyPDF2 yields non-blank accumulated text, that
is the result and the OCR outcome is never consulted;
(3)–(5) a raised per-page failure inside any of the three stages is simply
skipped: the result equals that of the same input without the failing page;
(6) when all pages of all three stages contribute only whitespace, the
result is the explicit string `"No text extracted from PDF."`, not an
error. -/
theorem extract_from_pdf_fallback_chain :
    (∀ ps p2 p2' p3 p3', isBlank (textStage "" ps) = false →
        extract_from_pdf ⟨.ok (), .ok ps, p2, p3⟩ = .ok (textStage "" ps) ∧
        extract_from_pdf ⟨.ok (), .ok ps, p2, p3⟩ =
          extract_from_pdf ⟨.ok (), .ok ps, p2', p3'⟩) ∧
    (∀ ps ps2 p3 p3', isBlank (textStage "" ps) = true →
        isBlank (textStage (textStage "" ps) ps2) = false →
        extract_from_pdf ⟨.ok (), .ok ps, .ok ps2, p3⟩ =
          .ok (textStage (textStage "" ps) ps2) ∧
        extract_from_pdf ⟨.ok (), .ok ps, .ok ps2, p3⟩ =
          extract_from_pdf ⟨.ok (), .ok ps, .ok ps2, p3'⟩) ∧
    (∀ xs ys err p2 p3,
        extract_from_pdf ⟨.ok (), .ok (xs ++ .error err :: ys), p2, p3⟩ =
          extract_from_pdf ⟨.ok (), .ok (xs ++ ys), p2, p3⟩) ∧
    (∀ ps xs ys err p3,
        extract_from_pdf ⟨.ok (), .ok ps, .ok (xs ++ .error err :: ys), p3⟩ =
          extract_from_pdf ⟨.ok (), .ok ps, .ok (xs ++ ys), p3⟩) ∧
    (∀ ps ps2 xs ys err,
        extract_from_pdf ⟨.ok (), .ok ps, .ok ps2, .ok (xs ++ .error err :: ys)⟩ =
          extract_from_pdf ⟨.ok (), .ok ps, .ok ps2, .ok (xs ++ ys)⟩) ∧
    (∀ ps ps2 ps3, ps.all pageBlank = true → ps2.all pageBlank = true →
        ps3.all ocrPageBlank = true →
        extract_from_pdf ⟨.ok (), .ok ps, .ok ps2, .ok ps3⟩ =
          .ok "No text extracted from PDF.") := by
  refine ⟨?_, ?_, ?_, ?_, ?_, ?_⟩
  · intro ps p2 p2' p3 p3' h
    constructor <;> simp [extract_from_pdf, h]
  · intro ps ps2 p3 p3' h1 h2
    constructor <;> simp [extract_from_pdf, h1, h2]
  · intro xs ys err p2 p3
    simp [extract_from_pdf, textStage_skip_error]
  · intro ps xs ys err p3
    simp [extract_from_pdf, textStage_skip_error]
  · intro ps ps2 xs ys err
    simp [extract_from_pdf, ocrStage_skip_error]
  · intro ps ps2 ps3 h1 h2 h3
    have b1 : isBlank (textStage "" ps) = true := by
      rw [isBlank_textStage _ _ h1]; rfl
    have b2 : isBlank (textStage (textStage "" ps) ps2) = true := by
      rw [isBlank_textStage _ _ h2, b1]
    have b3 : isBlank (ocrStage (textStage (textStage "" ps) ps2) ps3) = true := by
      rw [isBlank_ocrStage _ _ h3, b2]
    simp [extract_from_pdf, b1, b2, b3]

/-- Concrete instances of C3: a usable pdfplumber layer short-circuits the
chain even when the later stages would fail; a raised page is skipped; and
an all-whitespace document produces the explicit sentinel. -/
theorem extract_from_pdf_fallback_chain_witness :
    extract_from_pdf ⟨.ok (), .ok [.ok (some "hello")], .error "x", .error "y"⟩ =
        .ok "hello\n\n" ∧
    extract_from_pdf ⟨.ok (), .ok [.ok (some "hello"), .error "bad page"],
        .error "x", .error "y"⟩ =
      extract_from_pdf ⟨.ok (), .ok [.ok (some "hello")], .error "x", .error "y"⟩ ∧
    extract_from_pdf ⟨.ok (), .ok [.ok (some " "), .ok none],
        .ok [.error "p", .ok (some "")], .ok [.ok "\n"]⟩ =
      .ok "No text extracted from PDF." := by
  refine ⟨?_, ?_, ?_⟩
  · exact ((extract_from_pdf_fallback_chain.1 [.ok (some "hello")]
      (.error "x") (.error "x") (.error "y") (.error "y")) (by decide)).1
  · exact extract_from_pdf_fallback_chain.2.2.1 [.ok (some "hello")] []
      "bad page" (.error "x") (.error "y")
  · exact extract_from_pdf_fallback_chain.2.2.2.2.2
      [.ok (some " "), .ok none] [.error "p", .ok (some "")] [.ok "\n"]
      (by decide) (by decide) (by decide)

/-! ## C4 — the extractor can raise past its boundary -/

/-- C4 (code-bug exhibit): `extract_from_pdf` executes
`f = open("file.txt", "w")` *before* entering its `try:` block, and
`extract_text` has no exception handler of its own (`try ... finally`).
So for an existing local `.pdf` input, if opening the debug log file raises
(e.g. the working directory is read-only), the `OSError` propagates out of
`extract_text` instead of being converted to a descriptive result string —
contradicting the all-failures-become-strings contract.  The same happens
on the URL path after a successful download (where the `finally` block does
still delete the temporary file first). -/
theorem extract_text_propagates_logfile_error :
    extract_text
        { dl := ⟨.ok (), "/tmp/tmpabc.pdf", .ok ()⟩,
          fileExists := true,
          pdf := ⟨.error "[Errno 30] Read-only file system: file.txt",
            .ok [.ok (some "policy text")], .ok [], .ok []⟩,
          docx := ⟨.ok [], .ok ()⟩,
          txtRead := .ok "" }
        "policy.pdf" false =
      { result := .error "[Errno 30] Read-only file system: file.txt",
        tempExists := false } ∧
    extract_text
        { dl := ⟨.ok (), "/tmp/tmpabc.pdf", .ok ()⟩,
          fileExists := true,
          pdf := ⟨.error "[Errno 30] Read-only file system: file.txt",
            .ok [.ok (some "policy text")], .ok [], .ok []⟩,
          docx := ⟨.ok [], .ok ()⟩,
          txtRead := .ok "" }
        "https://host/policy.pdf" true =
      { result := .error "[Errno 30] Read-only file system: file.txt",
        tempExists := false } :=
  ⟨rfl, rfl⟩

/-! ## C5 — temporary-file cleanup -/

/-- C5 counterexample: `tempfile.NamedTemporaryFile(delete=False)` creates
the file on disk before `temp_file.write(response.content)` runs; if the
write raises, `download_pdf` catches it and returns an error string, so
`extract_text` returns early *before* `temp_file_path` is assigned — the
`finally` cleanup is skipped and the already-created temporary file remains
on disk after `extract_text` returns. -/
theorem extract_text_temp_leak_on_write_failure :
    extract_text
        { dl := ⟨.ok (), "/tmp/tmp123.pdf", .error "No space left on device"⟩,
          fileExists := true,
          pdf := ⟨.ok (), .ok [], .ok [], .ok []⟩,
          docx := ⟨.ok [], .ok ()⟩,
          txtRead := .ok "" }
        "https://host/doc.pdf" true =
      { result := .ok "Error downloading PDF: No space left on device",
        tempExists := true } :=
  rfl

/-- C5 (amended): whenever `download_pdf` completes — the HTTP GET and the
temporary-file write both succeed and the returned path does not itself
contain the substring `"Error"` — the `finally` block of `extract_text`
deletes the temporary file on every exit path: extraction success, sentinel
or error-string results, and even the propagated-exception path.  (When
`download_pdf` fails after creating the file, the file can remain; see the
counterexample.) -/
theorem extract_text_temp_cleanup (env : ExtractEnv) (url : String)
    (hGet : env.dl.getResult = .ok ())
    (hWrite : env.dl.writeResult = .ok ())
    (hName : pyIn "Error" env.dl.tempName = false) :
    (extract_text env url true).tempExists = false := by
  have hdl : download_pdf env.dl = (env.dl.tempName, true) := by
    simp [download_pdf, hGet, hWrite]
  cases hres : extract_from_pdf env.pdf with
  | ok s => simp [extract_text, hdl, hName, hres]
  | error e => simp [extract_text, hdl, hName, hres]

/-- Concrete instance of the amended C5, covering a successful extraction,
an all-stages-blank sentinel and a propagated exception. -/
theorem extract_text_temp_cleanup_witness :
    (extract_text
        { dl := ⟨.ok (), "/tmp/tmp123.pdf", .ok ()⟩,
          fileExists := true,
          pdf := ⟨.ok (), .ok [.ok (some "hello")], .ok [], .ok []⟩,
          docx := ⟨.ok [], .ok ()⟩,
          txtRead := .ok "" }
        "https://host/doc.pdf" true).tempExists = false ∧
    (extract_text
        { dl := ⟨.ok (), "/tmp/tmp123.pdf", .ok ()⟩,
          fileExists := true,
          pdf := ⟨.ok (), .ok [], .ok [], .ok []⟩,
          docx := ⟨.ok [], .ok ()⟩,
          txtRead := .ok "" }
        "https://host/doc.pdf" true).tempExists = false ∧
    (extract_text
        { dl := ⟨.ok (), "/tmp/tmp123.pdf", .ok ()⟩,
          fileExists := true,
          pdf := ⟨.error "log open failed", .ok [], .ok [], .ok []⟩,
          docx := ⟨.ok [], .ok ()⟩,
          txtRead := .ok "" }
        "https://host/doc.pdf" true).tempExists = false :=
  ⟨extract_text_temp_cleanup _ _ rfl rfl (by decide),
   extract_text_temp_cleanup _ _ rfl rfl (by decide),
   extract_text_temp_cleanup _ _ rfl rfl (by decide)⟩

/-! ## C7 — chunk metadata sanitization -/

theorem hasKey_false_iff (m : Metadata) (k : String) :
    hasKey m k = false ↔ ∀ kv ∈ m, (kv.1 == k) = false := by
  simp [hasKey, List.any_eq_false]

theorem dictGetD_of_hasKey_false (m : Metadata) (k : String) (d : PyVal)
    (h : hasKey m k = false) : dictGetD m k d = d := by
  have hm := (hasKey_false_iff m k).mp h
  have hf : m.find? (fun kv => kv.1 == k) = none :=
    List.find?_eq_none.mpr (fun x hx => by simp [hm x hx])
  simp [dictGetD, hf]

theorem dictSet_of_hasKey_false (m : Metadata) (k : String) (v : PyVal)
    (h : hasKey m k = false) : dictSet m k v = m ++ [(k, v)] := by
  simp [dictSet, h]

theorem keys_dictSet (m : Metadata) (k' : String) (v : PyVal) (k : String)
    (hne : (k' == k) = false) (h : ∀ kv ∈ m, (kv.1 == k) = false) :
    ∀ kv ∈ dictSet m k' v, (kv.1 == k) = false := by
  intro kv hkv
  unfold dictSet at hkv
  split at hkv
  · obtain ⟨kv0, hkv0, heq⟩ := List.mem_map.mp hkv
    by_cases h0 : (kv0.1 == k') = true
    · rw [if_pos h0] at heq
      rw [← heq]
      exact hne
    · rw [if_neg h0] at heq
      rw [← heq]
      exact h kv0 hkv0
  · rcases List.mem_append.mp hkv with hin | hin
    · exact h kv hin
    · have : kv = (k', v) := by simpa using hin
      rw [this]
      exact hne

theorem lookup_filter_mid (l1 l2 : Metadata) (k : String) (v : PyVal)
    (h1 : ∀ kv ∈ l1, (kv.1 == k) = false) (hv : isPrimitive v = true) :
    lookupVal ((l1 ++ (k, v) :: l2).filter (fun kv => isPrimitive kv.2)) k = some v := by
  induction l1 with
  | nil =>
    simp only [List.nil_append, List.filter_cons, hv, if_pos]
    simp [lookupVal, List.find?_cons]
  | cons kv0 l1 ih =>
    have hk := h1 kv0 (List.mem_cons_self kv0 l1)
    have hrest : ∀ kv ∈ l1, (kv.1 == k) = false :=
      fun x hx => h1 x (List.mem_cons_of_mem kv0 hx)
    simp only [List.cons_append, List.filter_cons]
    by_cases hp : isPrimitive kv0.2 = true
    · rw [if_pos hp]
      simpa [lookupVal, List.find?_cons, hk] using ih hrest
    · rw [if_neg hp]
      exact ih hrest

theorem sanitize_primitive (m : Metadata) :
    ∀ kv ∈ sanitizeMetadata m, isPrimitive kv.2 = true :=
  fun _ h => (List.mem_filter.mp h).2

theorem sanitize_source_default (m : Metadata)
    (h : hasKey m "source" = false) :
    lookupVal (sanitizeMetadata m) "source" = some (.str "unknown") := by
  have hm : ∀ kv ∈ m, (kv.1 == "source") = false := (hasKey_false_iff m _).mp h
  simp only [sanitizeMetadata]
  rw [dictGetD_of_hasKey_false m _ _ h, dictSet_of_hasKey_false m _ _ h]
  cases hp : hasKey (m ++ [("source", PyVal.str "unknown")]) "page" with
  | true =>
    rw [show dictSet (m ++ [("source", PyVal.str "unknown")]) "page"
          (dictGetD (m ++ [("source", PyVal.str "unknown")]) "page" (.int 0)) =
        (m ++ [("source", PyVal.str "unknown")]).map
          (fun kv => if kv.1 == "page"
            then ("page", dictGetD (m ++ [("source", PyVal.str "unknown")]) "page" (.int 0))
            else kv) from by simp [dictSet, hp]]
    rw [List.map_append]
    rw [show ([("source", PyVal.str "unknown")] : Metadata).map
          (fun kv => if kv.1 == "page"
            then ("page", dictGetD (m ++ [("source", PyVal.str "unknown")]) "page" (.int 0))
            else kv) = [("source", PyVal.str "unknown")] from by simp]
    refine lookup_filter_mid _ [] "source" _ ?_ rfl
    intro kv hkv
    obtain ⟨kv0, hkv0, heq⟩ := List.mem_map.mp hkv
    by_cases h0 : (kv0.1 == "page") = true
    · rw [if_pos h0] at heq
      rw [← heq]
      rfl
    · rw [if_neg h0] at heq
      rw [← heq]
      exact hm kv0 hkv0
  | false =>
    rw [dictSet_of_hasKey_false _ _ _ hp, List.append_assoc]
    exact lookup_filter_mid m _ "source" _ hm rfl

theorem sanitize_page_default (m : Metadata) (h : hasKey m "page" = false) :
    lookupVal (sanitizeMetadata m) "page" = some (.int 0) := by
  have hm : ∀ kv ∈ m, (kv.1 == "page") = false := (hasKey_false_iff m _).mp h
  simp only [sanitizeMetadata]
  have hm1 : ∀ kv ∈ dictSet m "source" (dictGetD m "source" (.str "unknown")),
      (kv.1 == "page") = false :=
    keys_dictSet m "source" _ "page" (by decide) hm
  have h1 : hasKey (dictSet m "source" (dictGetD m "source" (.str "unknown"))) "page" = false :=
    (hasKey_false_iff _ _).mpr hm1
  rw [dictGetD_of_hasKey_false _ _ _ h1, dictSet_of_hasKey_false _ _ _ h1]
  exact lookup_filter_mid _ [] "page" _ hm1 rfl

/-- C7 counterexample: a chunk whose incoming `'source'` value is composite
(here an empty list) has that key *deleted* by the sanitization loop — the
`dict.get('source', 'unknown')` call returns the existing composite value,
reassigns it, and the deletion pass then removes it — so the produced chunk
does not carry a `'source'` key at all, contradicting the claim that every
produced chunk carries one. -/
theorem chunk_documents_drops_composite_source :
    chunk_documents (Except.ok [⟨"t", [("source", PyVal.list [])]⟩]) =
      Except.ok [⟨"t", [("page", PyVal.int 0)]⟩] ∧
    hasKey [("page", PyVal.int 0)] "source" = false :=
  ⟨rfl, rfl⟩

/-- C7 (amended): every chunk produced by `chunk_documents` has only
primitive (string / int / float / bool) metadata values — non-primitive
values are deleted, including at the `'source'` and `'page'` keys — and a
chunk whose incoming metadata lacked a `'source'` (resp. `'page'`) key
carries `'source' = "unknown"` (resp. `'page' = 0`) in the output. -/
theorem chunk_documents_metadata_sanitized
    (cs out : List Document) (c : Document)
    (hout : chunk_documents (.ok cs) = .ok out) (hc : c ∈ out) :
    (∀ kv ∈ c.metadata, isPrimitive kv.2 = true) ∧
    ∃ c0, c0 ∈ cs ∧ c.page_content = c0.page_content ∧
      c.metadata = sanitizeMetadata c0.metadata ∧
      (hasKey c0.metadata "source" = false →
        lookupVal c.metadata "source" = some (.str "unknown")) ∧
      (hasKey c0.metadata "page" = false →
        lookupVal c.metadata "page" = some (.int 0)) := by
  have hmap : cs.map sanitizeChunk = out := by
    simpa [chunk_documents] using hout
  rw [← hmap] at hc
  obtain ⟨c0, hc0, hceq⟩ := List.mem_map.mp hc
  rw [← hceq]
  refine ⟨sanitize_primitive c0.metadata, c0, hc0, rfl, rfl, ?_, ?_⟩
  · exact fun h => sanitize_source_default c0.metadata h
  · exact fun h => sanitize_page_default c0.metadata h

/-- Concrete instance of the amended C7: a chunk with empty incoming
metadata receives both default keys. -/
theorem chunk_documents_metadata_sanitized_witness :
    lookupVal (sanitizeChunk ⟨"t", []⟩).metadata "source" = some (.str "unknown") ∧
    lookupVal (sanitizeChunk ⟨"t", []⟩).metadata "page" = some (.int 0) := by
  obtain ⟨hprim, c0, hc0, hpc, hmeta, hsrc, hpage⟩ :=
    chunk_documents_metadata_sanitized [⟨"t", []⟩] [sanitizeChunk ⟨"t", []⟩]
      (sanitizeChunk ⟨"t", []⟩) rfl (by simp)
  have h0 : c0 = ⟨"t", []⟩ := by simpa using hc0
  subst h0
  exact ⟨hsrc rfl, hpage rfl⟩

/-! ## C8 — suffix classification of inputs -/

/-- C8 counterexample: an input whose suffix is not one of the supported
kinds is *rejected* by `load_document` with
`HTTPException(400, "Document loading error: Unsupported file format")`
(the raised `ValueError` is converted by the handler), not processed as
plain text — no loader is invoked, whatever the loaders would return. -/
theorem load_document_rejects_unknown_suffix :
    load_document (fun _ => .ok [⟨"pdf", []⟩]) (fun _ => .ok [⟨"docx", []⟩])
        (fun _ => .ok [⟨"eml", []⟩]) "https://host/file.xyz" =
      .error ⟨400, "Document loading error: Unsupported file format"⟩ :=
  rfl

/-- C8 (amended): the document kind is classified from the filename/URL
suffix — a `.pdf` suffix consults only the PDF loader, `.docx` only the
DOCX loader, `.eml`/`.msg` only the email loader — and every unsupported
suffix is *rejected*: `load_document` raises an unsupported-format
`HTTPException(400, ...)`, and the standalone extractor returns the
explicit result string `"Unsupported file format. Use PDF, DOCX, or TXT."`
for a local path with an unsupported extension; neither processes the input
as plain text. -/
theorem suffix_classification
    (lp ld le lp' ld' le' : String → Except String (List Document))
    (url : String) (env : ExtractEnv) (path : String) :
    (pyEndsWith ".pdf" url = true →
        load_document lp ld le url = load_document lp ld' le' url) ∧
    (pyEndsWith ".pdf" url = false → pyEndsWith ".docx" url = true →
        load_document lp ld le url = load_document lp' ld le' url) ∧
    (pyEndsWith ".pdf" url = false → pyEndsWith ".docx" url = false →
        (pyEndsWith ".eml" url || pyEndsWith ".msg" url) = true →
        load_document lp ld le url = load_document lp' ld' le url) ∧
    (pyEndsWith ".pdf" url = false → pyEndsWith ".docx" url = false →
        pyEndsWith ".eml" url = false → pyEndsWith ".msg" url = false →
        load_document lp ld le url =
          .error ⟨400, "Document loading error: Unsupported file format"⟩) ∧
    (env.fileExists = true → pyExt path ≠ ".pdf" → pyExt path ≠ ".docx" →
        pyExt path ≠ ".txt" →
        (extract_text env path false).result =
          .ok "Unsupported file format. Use PDF, DOCX, or TXT.") := by
  refine ⟨?_, ?_, ?_, ?_, ?_⟩
  · intro h1
    simp [load_document, h1]
  · intro h1 h2
    simp [load_document, h1, h2]
  · intro h1 h2 h3
    simp [load_document, h1, h2, h3]
  · intro h1 h2 h3 h4
    simp [load_document, h1, h2, h3, h4]
  · intro hex h1 h2 h3
    simp [extract_text, hex, h1, h2, h3]

/-- Concrete instance of C8 (amended): a `.xyz` URL is rejected by the
loader, and a local `.xyz` file yields the unsupported-format result. -/
theorem suffix_classification_witness :
    load_document (fun _ => .ok []) (fun _ => .ok []) (fun _ => .ok [])
        "https://host/file.xyz" =
      .error ⟨400, "Document loading error: Unsupported file format"⟩ ∧
    (extract_text
        { dl := ⟨.ok (), "t.pdf", .ok ()⟩, fileExists := true,
          pdf := ⟨.ok (), .ok [], .ok [], .ok []⟩,
          docx := ⟨.ok [], .ok ()⟩, txtRead := .ok "" }
        "data/file.xyz" false).result =
      .ok "Unsupported file format. Use PDF, DOCX, or TXT." :=
  ⟨(suffix_classification (fun _ => .ok []) (fun _ => .ok []) (fun _ => .ok [])
      (fun _ => .ok []) (fun _ => .ok []) (fun _ => .ok []) "https://host/file.xyz"
      { dl := ⟨.ok (), "t.pdf", .ok ()⟩, fileExists := true,
        pdf := ⟨.ok (), .ok [], .ok [], .ok []⟩,
        docx := ⟨.ok [], .ok ()⟩, txtRead := .ok "" }
      "data/file.xyz").2.2.2.1 (by decide) (by decide) (by decide) (by decide),
   (suffix_classification (fun _ => .ok []) (fun _ => .ok []) (fun _ => .ok [])
      (fun _ => .ok []) (fun _ => .ok []) (fun _ => .ok []) "https://host/file.xyz"
      { dl := ⟨.ok (), "t.pdf", .ok ()⟩, fileExists := true,
        pdf := ⟨.ok (), .ok [], .ok [], .ok []⟩,
        docx := ⟨.ok [], .ok ()⟩, txtRead := .ok "" }
      "data/file.xyz").2.2.2.2 rfl (by decide) (by decide) (by decide)⟩

/-! ## C9 — domain classification and prompt construction -/

theorem build_prompt_of_lookup (question ctx tpl : String)
    (h : domainLookup (_determine_domain question) = some tpl) :
    build_prompt question ctx = tpl := by
  simp [build_prompt, h]

theorem build_prompt_of_general (question ctx : String)
    (h : domainLookup (_determine_domain question) = none) :
    build_prompt question ctx =
      defaultTplA ++ ctx ++ defaultTplB ++ question ++ defaultTplC := by
  simp [build_prompt, h]

theorem pyIn_default_prompt_ctx (q c : String) :
    pyIn c (defaultTplA ++ c ++ defaultTplB ++ q ++ defaultTplC) = true := by
  simp only [pyIn, String.data_append, List.append_assoc]
  exact listIn_append_left _ _ _ (listIn_append_self _ _)

theorem pyIn_default_prompt_question (q c : String) :
    pyIn q (defaultTplA ++ c ++ defaultTplB ++ q ++ defaultTplC) = true := by
  simp only [pyIn, String.data_append, List.append_assoc]
  exact listIn_append_left _ _ _ (listIn_append_left _ _ _
    (listIn_append_left _ _ _ (listIn_append_self _ _)))

theorem pyIn_default_prompt_field (q c f : String)
    (hf : pyIn f defaultTplC = true) :
    pyIn f (defaultTplA ++ c ++ defaultTplB ++ q ++ defaultTplC) = true := by
  simp only [pyIn, String.data_append, List.append_assoc]
  exact listIn_append_left _ _ _ (listIn_append_left _ _ _
    (listIn_append_left _ _ _ (listIn_append_left _ _ _ hf)))

set_option maxRecDepth 200000 in
theorem fields_in_defaultTplC :
    pyIn "answer" defaultTplC = true ∧ pyIn "conditions" defaultTplC = true ∧
    pyIn "references" defaultTplC = true ∧ pyIn "rationale" defaultTplC = true ∧
    pyIn "confidence" defaultTplC = true := by
  refine ⟨?_, ?_, ?_, ?_, ?_⟩ <;> decide

theorem determine_domain_cases (question : String) :
    _determine_domain question = "insurance" ∨ _determine_domain question = "legal" ∨
    _determine_domain question = "hr" ∨ _determine_domain question = "compliance" ∨
    _determine_domain question = "general" := by
  simp only [_determine_domain]
  split_ifs <;> simp

set_option maxRecDepth 200000 in
/-- C9 counterexample: the question `"Is loss covered by the policy?"` is
classified as `insurance`, and the prompt actually sent for it is the bare
insurance instruction template, which contains neither the retrieved
context, nor the question itself, nor the `confidence` field of the
output-schema directive — contradicting the claim that the single prompt
contains all of domain instructions, context, question and schema. -/
theorem insurance_prompt_missing_parts :
    _determine_domain "Is loss covered by the policy?" = "insurance" ∧
    build_prompt "Is loss covered by the policy?" "CTXBLOB" = insuranceTpl ∧
    pyIn "Is loss covered by the policy?"
      (build_prompt "Is loss covered by the policy?" "CTXBLOB") = false ∧
    pyIn "CTXBLOB" (build_prompt "Is loss covered by the policy?" "CTXBLOB") = false ∧
    pyIn "confidence" (build_prompt "Is loss covered by the policy?" "CTXBLOB") = false := by
  refine ⟨rfl, rfl, ?_, ?_, ?_⟩ <;> decide

/-- C9 (amended): the domain is selected from the question text by
case-insensitive keyword membership into
{insurance, legal, hr, compliance, general}; for the four specific domains
the prompt sent to the LLM is exactly that domain's instruction template —
it ignores the retrieved context and the question entirely — and only for
`general` (the default template) does the single prompt contain the
concatenated retrieved context, the question, and the output-schema
directive naming the five StructuredAnswer fields. -/
theorem domain_prompt_selection (question ctx : String) :
    (_determine_domain question = "insurance" ∨ _determine_domain question = "legal" ∨
     _determine_domain question = "hr" ∨ _determine_domain question = "compliance" ∨
     _determine_domain question = "general") ∧
    (_determine_domain question ≠ "general" →
        ∃ tpl, domainLookup (_determine_domain question) = some tpl ∧
          ∀ ctx', build_prompt question ctx' = tpl) ∧
    (_determine_domain question = "general" →
        pyIn ctx (build_prompt question ctx) = true ∧
        pyIn question (build_prompt question ctx) = true ∧
        pyIn "answer" (build_prompt question ctx) = true ∧
        pyIn "conditions" (build_prompt question ctx) = true ∧
        pyIn "references" (build_prompt question ctx) = true ∧
        pyIn "rationale" (build_prompt question ctx) = true ∧
        pyIn "confidence" (build_prompt question ctx) = true) := by
  refine ⟨determine_domain_cases question, ?_, ?_⟩
  · intro hne
    rcases determine_domain_cases question with hd | hd | hd | hd | hd
    · exact ⟨insuranceTpl, by rw [hd]; rfl,
        fun ctx' => build_prompt_of_lookup _ _ _ (by rw [hd]; rfl)⟩
    · exact ⟨legalTpl, by rw [hd]; rfl,
        fun ctx' => build_prompt_of_lookup _ _ _ (by rw [hd]; rfl)⟩
    · exact ⟨hrTpl, by rw [hd]; rfl,
        fun ctx' => build_prompt_of_lookup _ _ _ (by rw [hd]; rfl)⟩
    · exact ⟨complianceTpl, by rw [hd]; rfl,
        fun ctx' => build_prompt_of_lookup _ _ _ (by rw [hd]; rfl)⟩
    · exact absurd hd hne
  · intro hd
    have hnone : domainLookup (_determine_domain question) = none := by rw [hd]; rfl
    rw [build_prompt_of_general question ctx hnone]
    obtain ⟨f1, f2, f3, f4, f5⟩ := fields_in_defaultTplC
    exact ⟨pyIn_default_prompt_ctx question ctx,
      pyIn_default_prompt_question question ctx,
      pyIn_default_prompt_field question ctx _ f1,
      pyIn_default_prompt_field question ctx _ f2,
      pyIn_default_prompt_field question ctx _ f3,
      pyIn_default_prompt_field question ctx _ f4,
      pyIn_default_prompt_field question ctx _ f5⟩

/-- Concrete instances of the amended C9: an insurance question gets the
bare insurance template regardless of context; a keyword-free question is
`general` and its prompt carries context, question and the schema fields. -/
theorem domain_prompt_selection_witness :
    build_prompt "Is loss covered by the policy?" "AAA" =
      build_prompt "Is loss covered by the policy?" "BBB" ∧
    pyIn "CONTEXTBITS" (build_prompt "What about weather?" "CONTEXTBITS") = true ∧
    pyIn "confidence" (build_prompt "What about weather?" "CONTEXTBITS") = true := by
  obtain ⟨-, hspec, -⟩ :=
    domain_prompt_selection "Is loss covered by the policy?" "AAA"
  obtain ⟨tpl, -, htpl⟩ := hspec (by decide)
  obtain ⟨-, -, hgen⟩ :=
    domain_prompt_selection "What about weather?" "CONTEXTBITS"
  obtain ⟨hctx, -, -, -, -, -, hconf⟩ := hgen (by decide)
  exact ⟨(htpl "AAA").trans (htpl "BBB").symm, hctx, hconf⟩

/-! ## C1 / C2 — the per-request answer loop is unreachable -/

/-- C1 (code-bug exhibit): the answers loop the claim describes is in the
code — `answers` is built by appending one entry per question, in order —
but no request can reach it.  `verify_token` raises for *every* header:
401 (re-raised as-is by `except HTTPException: raise`) when the `"Bearer "`
prefix is missing, and otherwise the `NameError` from the missing
`import os`, which the generic handler converts into
`HTTPException(500, {"error": "Internal server error", ...})`.  So for all
environments, documents and question lists, `process_documents` returns an
error and never an answers list. -/
theorem process_documents_never_succeeds (env : RunEnv) (auth : List Char)
    (docsUrl : String) (qs : List String) :
    process_documents env auth docsUrl qs =
      (if bearerTag.isPrefixOf auth then
        .error ⟨500, "Internal server error: name 'os' is not defined"⟩
      else
        .error ⟨401, "Invalid authorization header format"⟩) := by
  cases h : bearerTag.isPrefixOf auth <;>
    simp [process_documents, verify_token, h]

/-- C2 (code-bug exhibit): the spec's own isolation scenario — questions
`["Q1", "Q2"]` where Q2's retrieval raises — never runs: with a
well-formed bearer header and a pipeline environment in which Q1 would
succeed and Q2 would fail in retrieval, the request dies in `verify_token`
with the `NameError`-derived 500 before load/chunk/store or any question is
processed, instead of returning the success-shaped response with a valid
Q1 answer and an error string for Q2. -/
theorem process_documents_isolation_unreachable :
    process_documents
        { initOk := .ok (),
          loadPdf := fun _ => .ok [⟨"doc text", []⟩],
          loadDocx := fun _ => .ok [], loadEmail := fun _ => .ok [],
          splitDocs := fun ds => .ok ds, createStore := fun _ => .ok (),
          search := fun q => if q = "Q2" then .error "boom" else .ok [],
          runQuery := fun _ _ => .ok "plain answer",
          jsonLoads := fun _ => none }
        "Bearer k".data "https://host/d.pdf" ["Q1", "Q2"] =
      .error ⟨500, "Internal server error: name 'os' is not defined"⟩ :=
  rfl
